import Mathlib

/-!
Shallow embedding of `src/weather_github_runner.py` (the discovery-then-dispatch
weather fan-out service).  Network interactions are modelled by oracles:

* a push oracle `Nat → PushResponse` gives, per attempt number, the HTTP
  response (status code) or a transport-level `requests` exception;
* a probe oracle `String → Option (Except Unit Nat)` gives, per device id,
  `none` when the harness-level `future.result` call raises, and otherwise the
  probe's HTTP status code or a transport exception;
* a weather oracle `Nat → WeatherResp` gives, per attempt number, a transport /
  HTTP error (anything `raise_for_status` turns into a caught
  `RequestException`) or a parsed JSON payload whose optional fields model
  missing JSON keys.

Functions that count attempts return the result paired with the number of
HTTP requests actually performed.
-/

namespace WeatherRunner

/-- Module constant `MAX_RETRIES = 3` of the source. -/
def MAX_RETRIES : Nat := 3

/-- Local constant `batch_size = 8` of `main`. -/
def batch_size : Nat := 8

/-- Outcome of one HTTP POST as seen by `send_to_thinger_api`:
either a status code, or a `requests.exceptions.RequestException`. -/
inductive PushResponse where
  | status (code : Nat)
  | requestError
deriving DecidableEq

/-- Responses on which `send_to_thinger_api` keeps looping (neither 200 nor
404: any other status, or a transport error). -/
def push_retryable : PushResponse → Bool
  | .status code => if code = 200 then false else if code = 404 then false else true
  | .requestError => true

/-- The retry loop of `send_to_thinger_api`: first argument is the number of
loop iterations remaining, second the number of attempts already performed
(also the 0-based index of the next attempt).  Returns the Python function's
boolean result paired with the total number of POST requests performed. -/
def send_attempts (oracle : Nat → PushResponse) : Nat → Nat → Bool × Nat
  | 0, attempts => (false, attempts)
  | n + 1, attempts =>
    match oracle attempts with
    | .requestError => send_attempts oracle n (attempts + 1)
    | .status code =>
      if code = 200 then (true, attempts + 1)
      else if code = 404 then (false, attempts + 1)
      else send_attempts oracle n (attempts + 1)

/-- Model of `send_to_thinger_api` (lines 116-150): loop `for attempt in
range(MAX_RETRIES)`; 200 returns True, 404 returns False immediately, any
other status or `RequestException` retries; exhaustion returns False. -/
def send_to_thinger_api (oracle : Nat → PushResponse) : Bool × Nat :=
  send_attempts oracle MAX_RETRIES 0

/-- Model of `check_device_exists` (lines 74-87): GET on the device's `OutTemp`
resource; `True` exactly on status 200, and any exception yields `False`. -/
def check_device_exists (resp : Except Unit Nat) : Bool :=
  match resp with
  | .ok code => code == 200
  | .error _ => false

/-- Body of the `as_completed` loop of `discover_available_devices`: a device
is inserted into the set when its future neither raised (`none` models a
raising `future.result`) nor returned `False`. -/
def discover_step (probeResponse : String → Option (Except Unit Nat))
    (s : Finset String) (d : String) : Finset String :=
  match probeResponse d with
  | some resp => if check_device_exists resp then insert d s else s
  | none => s

/-- Model of `discover_available_devices` (lines 89-114): fold the probe results, in
completion order, into a set of available device ids. -/
def discover_available_devices (probeResponse : String → Option (Except Unit Nat))
    (completionOrder : List String) : Finset String :=
  completionOrder.foldl (discover_step probeResponse) ∅

/-- Whether a device's probe chain reports it reachable: harness exceptions
count as unreachable, otherwise `check_device_exists` decides. -/
def probe_reachable (probeResponse : String → Option (Except Unit Nat))
    (d : String) : Bool :=
  match probeResponse d with
  | some resp => check_device_exists resp
  | none => false

/-- The `results` dict of `process_device_batch`: keys `"success"` and
`"failed"`. -/
structure BatchResults where
  success : Nat
  failed : Nat
deriving DecidableEq

/-- The per-device loop of `process_device_batch` with the running tallies as
accumulator. -/
def process_batch_go (push : String → Bool) (acc : BatchResults) :
    List String → BatchResults
  | [] => acc
  | d :: rest =>
    if push d then process_batch_go push ⟨acc.success + 1, acc.failed⟩ rest
    else process_batch_go push ⟨acc.success, acc.failed + 1⟩ rest

/-- Model of `process_device_batch` (lines 152-166): tally each device of the batch as
success or failed according to its `send_to_thinger_api` outcome. -/
def process_device_batch (push : String → Bool) (devices : List String) :
    BatchResults :=
  process_batch_go push ⟨0, 0⟩ devices

/-- The `as_completed` result-collection loop of `main` (lines 267-275): an
`ok` future adds its batch tallies; a future that raises adds the constant
`batch_size` to the failed tally. -/
def collect_batch_go (acc : BatchResults) :
    List (Except Unit BatchResults) → BatchResults
  | [] => acc
  | .ok r :: rest => collect_batch_go ⟨acc.success + r.success, acc.failed + r.failed⟩ rest
  | .error _ :: rest => collect_batch_go ⟨acc.success, acc.failed + batch_size⟩ rest

/-- Aggregate a list of batch-future outcomes into the run totals. -/
def collect_batch_totals (results : List (Except Unit BatchResults)) : BatchResults :=
  collect_batch_go ⟨0, 0⟩ results

/-- The batching loop of `main` with explicit fuel (structural recursion; the
wrapper passes the list length, which suffices because every slice of a
positive size consumes at least one element). -/
def make_batches_go (bs : Nat) : Nat → List String → List (List String)
  | 0, _ => []
  | _, [] => []
  | fuel + 1, d :: rest =>
    ((d :: rest).take bs) :: make_batches_go bs fuel ((d :: rest).drop bs)

/-- The batching loop of `main`: `available_device_list[i:i + batch_size]`
slices, i.e. contiguous chunks of the given size (the source fixes the size
at the constant 8, so a zero size never occurs there). -/
def make_batches (bs : Nat) (l : List String) : List (List String) :=
  make_batches_go bs l.length l

/-- Run totals of `main`'s dispatch phase when every batch future completes
normally: every future is `ok` with its batch's tallies. -/
def dispatch_totals (push : String → Bool) (batches : List (List String)) :
    BatchResults :=
  collect_batch_totals (batches.map (fun b => Except.ok (process_device_batch push b)))

/-- The computation `success_rate = (total_success / len(available_device_list)) * 100`
(line 298), as an exact rational. -/
def success_rate (success available : Nat) : ℚ :=
  (success : ℚ) / (available : ℚ) * 100

/-- The run-classification comparison of `main` (line 299): the run fails on
`success_rate < threshold` and passes otherwise; the source fixes the
threshold at 80 percent. -/
def run_passes (success available : Nat) (threshold : ℚ) : Bool :=
  !(decide (success_rate success available < threshold))

/-- The `data['main']` JSON object of the weather response; `none` fields
model missing JSON keys (whose subscripting raises `KeyError`). -/
structure WeatherMain where
  temp : Option ℚ
  humidity : Option ℚ
deriving DecidableEq

/-- The weather response body: optional `main` object and the `weather`
array, each entry carrying an optional `description`. -/
structure WeatherPayload where
  main : Option WeatherMain
  weather : List (Option String)
deriving DecidableEq

/-- Outcome of one weather GET: either a caught `RequestException` (transport
failure, timeout, or the `HTTPError` that `raise_for_status` throws on a
non-2xx status) or a parsed JSON body. -/
inductive WeatherResp where
  | requestError
  | ok (payload : WeatherPayload)
deriving DecidableEq

/-- The `weather_info` dict built by `get_athens_weather` (the wall-clock
timestamp field is outside the model). -/
structure WeatherInfo where
  temperature : ℚ
  humidity : ℚ
  city : String
  country : String
  description : String
deriving DecidableEq

/-- The expression `data['weather'][0].get('description', 'Unknown') if data.get('weather')
else 'Unknown'` (line 59). -/
def weather_description (payload : WeatherPayload) : String :=
  match payload.weather with
  | [] => "Unknown"
  | o :: _ => o.getD "Unknown"

/-- The retry loop of `get_athens_weather` (lines 40-72).  The `except` clause
catches only `requests.exceptions.RequestException`; subscripting a payload
that lacks `main`, `main.temp` or `main.humidity` raises `KeyError`, which
escapes the function (modelled by `Except.error`).  Returns the outcome
paired with the number of GET requests performed. -/
def weather_attempts (oracle : Nat → WeatherResp) :
    Nat → Nat → Except Unit (Option WeatherInfo) × Nat
  | 0, attempts => (.ok none, attempts)
  | n + 1, attempts =>
    match oracle attempts with
    | .requestError => weather_attempts oracle n (attempts + 1)
    | .ok payload =>
      match payload.main with
      | none => (.error (), attempts + 1)
      | some m =>
        match m.temp with
        | none => (.error (), attempts + 1)
        | some t =>
          match m.humidity with
          | none => (.error (), attempts + 1)
          | some h =>
            (.ok (some ⟨t, h, "Athens", "GR", weather_description payload⟩), attempts + 1)

/-- Model of `get_athens_weather`: run the retry loop for `MAX_RETRIES` attempts. -/
def get_athens_weather (oracle : Nat → WeatherResp) :
    Except Unit (Option WeatherInfo) × Nat :=
  weather_attempts oracle MAX_RETRIES 0

/-- A payload is malformed when a field that `get_athens_weather`
subscripts unconditionally is missing. -/
def payload_malformed (payload : WeatherPayload) : Bool :=
  match payload.main with
  | none => true
  | some m => m.temp.isNone || m.humidity.isNone

/-- Terminal classification of one `main` invocation. -/
inductive RunStatus where
  | abortedConfig
  | abortedNoDevices
  | abortedWeather
  | completed (passed : Bool) (success : Nat) (failed : Nat)
deriving DecidableEq

/-- Whether `main` returned early (any of the three `return` statements that
skip the dispatch phase). -/
def RunStatus.isAborted : RunStatus → Bool
  | .completed _ _ _ => false
  | _ => true

/-- Observable trace of one `main` invocation: which devices were probed,
whether the weather GET was issued, which devices received a push, and the
terminal classification. -/
structure RunOutcome where
  probed : List String
  weatherAttempted : Bool
  pushed : List String
  status : RunStatus
deriving DecidableEq

/-- Model of `main` (lines 202-304): validate the environment variables, discover the
reachable devices (abort when none), fetch the weather (abort on failure),
dispatch the temperature in batches of `batch_size`, and classify the run by
comparing the success rate over the reachable devices against 80 percent.
The candidate list, probe responses, weather result and per-device push
outcomes are parameters standing for the configured identifier range and the
network. -/
def mainRun (tokenPresent apiKeyPresent : Bool) (candidates : List String)
    (probeResponse : String → Option (Except Unit Nat))
    (weather : Option ℚ) (push : String → Bool) : RunOutcome :=
  if !(tokenPresent && apiKeyPresent) then ⟨[], false, [], .abortedConfig⟩
  else
    let available := discover_available_devices probeResponse candidates
    if available = ∅ then ⟨candidates, false, [], .abortedNoDevices⟩
    else
      match weather with
      | none => ⟨candidates, true, [], .abortedWeather⟩
      | some _t =>
        let available_device_list := available.sort (· ≤ ·)
        let totals := dispatch_totals push (make_batches batch_size available_device_list)
        ⟨candidates, true, available_device_list,
          .completed (run_passes totals.success available_device_list.length 80)
            totals.success totals.failed⟩

/-!  ## Helper lemmas  -/

/-- A retryable response makes one loop iteration of `send_to_thinger_api`
fall through to the next attempt. -/
lemma send_attempts_retry (oracle : Nat → PushResponse) (n k : Nat)
    (h : push_retryable (oracle k) = true) :
    send_attempts oracle (n + 1) k = send_attempts oracle n (k + 1) := by
  rcases ho : oracle k with code | _
  · rw [ho] at h
    have h200 : ¬ code = 200 := by
      intro e; subst e; simp [push_retryable] at h
    have h404 : ¬ code = 404 := by
      intro e; subst e; simp [push_retryable] at h
    simp [send_attempts, ho, h200, h404]
  · simp [send_attempts, ho]

/-!  ## C1  -/

/-- Transient 500s before the 404 of the C1 witness. -/
def c1_oracle_404 : Nat → PushResponse :=
  fun k => if k = 0 then .status 500 else .status 404

/-- All attempts fail at the transport level in the C1 witness. -/
def c1_oracle_err : Nat → PushResponse := fun _ => .requestError

/-- C1: whenever a 404 response arrives (after any run of retryable
responses), `send_to_thinger_api` reports a non-delivered outcome at once,
having performed no request beyond the one that got the 404; and when every
attempt fails at the transport level the function performs exactly
`MAX_RETRIES` requests and then reports failure.  The device identifier and
temperature only shape the request, never the control flow, so the response
oracle carries all the relevant behaviour. -/
theorem send_terminal_on_404_and_exhausts_retries :
    (∀ (oracle : Nat → PushResponse) (k : Nat), k < MAX_RETRIES →
      (∀ j, j < k → push_retryable (oracle j) = true) →
      oracle k = .status 404 →
      send_to_thinger_api oracle = (false, k + 1))
    ∧ (∀ oracle : Nat → PushResponse,
      (∀ j, j < MAX_RETRIES → oracle j = .requestError) →
      send_to_thinger_api oracle = (false, MAX_RETRIES)) := by
  constructor
  · intro oracle k hk hpre h404
    have hk3 : k < 3 := hk
    interval_cases k
    · show send_attempts oracle 3 0 = (false, 1)
      simp [send_attempts, h404]
    · show send_attempts oracle 3 0 = (false, 2)
      rw [send_attempts_retry oracle 2 0 (hpre 0 (by omega))]
      simp [send_attempts, h404]
    · show send_attempts oracle 3 0 = (false, 3)
      rw [send_attempts_retry oracle 2 0 (hpre 0 (by omega)),
        send_attempts_retry oracle 1 1 (hpre 1 (by omega))]
      simp [send_attempts, h404]
  · intro oracle h
    show send_attempts oracle 3 0 = (false, 3)
    simp [send_attempts, h 0 (by decide), h 1 (by decide), h 2 (by decide)]

/-- Witness for C1: a 404 at the second attempt stops the push after exactly
two requests, and three transport failures exhaust the three attempts. -/
theorem send_terminal_on_404_and_exhausts_retries_witness :
    send_to_thinger_api c1_oracle_404 = (false, 2)
    ∧ send_to_thinger_api c1_oracle_err = (false, 3) :=
  ⟨send_terminal_on_404_and_exhausts_retries.1 c1_oracle_404 1 (by decide)
      (by decide) (by decide),
    send_terminal_on_404_and_exhausts_retries.2 c1_oracle_err (fun _ _ => rfl)⟩

/-!  ## C2  -/

/-- One discovery step either inserts the device (reachable) or leaves the
set unchanged. -/
lemma discover_step_eq (p : String → Option (Except Unit Nat))
    (s : Finset String) (d : String) :
    discover_step p s d = if probe_reachable p d then insert d s else s := by
  unfold discover_step probe_reachable
  rcases p d with _ | resp
  · rfl
  · rfl

/-- Membership after folding discovery steps over any processing order. -/
lemma mem_discover_go (p : String → Option (Except Unit Nat)) :
    ∀ (l : List String) (s : Finset String) (x : String),
      x ∈ l.foldl (discover_step p) s ↔
        x ∈ s ∨ (x ∈ l ∧ probe_reachable p x = true) := by
  intro l
  induction l with
  | nil => intro s x; simp
  | cons d rest ih =>
    intro s x
    rw [List.foldl_cons, ih, discover_step_eq]
    by_cases h : probe_reachable p d = true
    · rw [if_pos h]
      simp only [Finset.mem_insert, List.mem_cons]
      constructor
      · rintro ((rfl | hx) | hrest)
        · exact Or.inr ⟨Or.inl rfl, h⟩
        · exact Or.inl hx
        · exact Or.inr ⟨Or.inr hrest.1, hrest.2⟩
      · rintro (hx | ⟨rfl | hmem, hr⟩)
        · exact Or.inl (Or.inr hx)
        · exact Or.inl (Or.inl rfl)
        · exact Or.inr ⟨hmem, hr⟩
    · rw [if_neg h]
      simp only [List.mem_cons]
      constructor
      · rintro (hx | hrest)
        · exact Or.inl hx
        · exact Or.inr ⟨Or.inr hrest.1, hrest.2⟩
      · rintro (hx | ⟨rfl | hmem, hr⟩)
        · exact Or.inl hx
        · exact absurd hr h
        · exact Or.inr ⟨hmem, hr⟩

/-- Membership in the discovered set. -/
lemma mem_discover (p : String → Option (Except Unit Nat))
    (order : List String) (x : String) :
    x ∈ discover_available_devices p order ↔
      x ∈ order ∧ probe_reachable p x = true := by
  rw [discover_available_devices, mem_discover_go]
  simp

/-- Probe chain of the C2 witness: one 200, one 404, one harness exception,
anything else a transport error. -/
def c2_probe : String → Option (Except Unit Nat) := fun d =>
  if d = "CAL251" then some (.ok 200)
  else if d = "CAL252" then some (.ok 404)
  else if d = "CAL253" then none
  else some (.error ())

/-- C2: over any completion order of the probe futures, the discovered set is
a subset of the candidates, its members are exactly the candidates whose
probe chain reports `True` (a probe transport error makes
`check_device_exists` return `False`, and a raising `future.result` is
swallowed, so both count as unreachable), and any two completion orders of
the same candidates give the same set; the worker-pool width never appears
in the result. -/
theorem discover_exact_subset_and_order_independent
    (probeResponse : String → Option (Except Unit Nat))
    (candidates completionOrder : List String)
    (hperm : completionOrder.Perm candidates) :
    discover_available_devices probeResponse completionOrder ⊆ candidates.toFinset
    ∧ (∀ d, d ∈ discover_available_devices probeResponse completionOrder ↔
        d ∈ candidates ∧ probe_reachable probeResponse d = true)
    ∧ (∀ other : List String, other.Perm candidates →
        discover_available_devices probeResponse other =
          discover_available_devices probeResponse completionOrder) := by
  have hmem : ∀ d, d ∈ discover_available_devices probeResponse completionOrder ↔
      d ∈ candidates ∧ probe_reachable probeResponse d = true := by
    intro d
    rw [mem_discover, hperm.mem_iff]
  refine ⟨?_, hmem, ?_⟩
  · intro d hd
    rw [List.mem_toFinset]
    exact ((hmem d).1 hd).1
  · intro other hother
    ext d
    rw [hmem d, mem_discover, hother.mem_iff]

/-- Witness for C2: a shuffled completion order yields the same discovered
set as the candidate order itself. -/
theorem discover_exact_subset_and_order_independent_witness :
    discover_available_devices c2_probe ["CAL253", "CAL251", "CAL254", "CAL252"] =
      discover_available_devices c2_probe ["CAL251", "CAL252", "CAL253", "CAL254"] :=
  (discover_exact_subset_and_order_independent c2_probe
      ["CAL251", "CAL252", "CAL253", "CAL254"]
      ["CAL251", "CAL252", "CAL253", "CAL254"] (by decide)).2.2
    ["CAL253", "CAL251", "CAL254", "CAL252"] (by decide)

/-!  ## C4 / C10  -/

/-- Per-device successes and failures add and never cancel: their tallies sum
to the batch length. -/
lemma countP_add_countP_not (p : String → Bool) :
    ∀ l : List String, l.countP p + l.countP (fun d => !p d) = l.length := by
  intro l
  induction l with
  | nil => simp
  | cons d rest ih =>
    cases h : p d <;> simp [List.countP_cons, h] <;> omega

/-- The per-batch loop counts the devices whose push succeeded and those
whose push failed, on top of the running tallies. -/
lemma process_batch_go_eq (push : String → Bool) :
    ∀ (l : List String) (s f : Nat),
      process_batch_go push ⟨s, f⟩ l =
        ⟨s + l.countP push, f + l.countP (fun d => !push d)⟩ := by
  intro l
  induction l with
  | nil => intro s f; simp [process_batch_go]
  | cons d rest ih =>
    intro s f
    cases h : push d
    · have hstep : process_batch_go push ⟨s, f⟩ (d :: rest)
          = process_batch_go push ⟨s, f + 1⟩ rest := by
        simp [process_batch_go, h]
      rw [hstep, ih]
      have hc1 : (d :: rest).countP push = rest.countP push := by
        simp [List.countP_cons, h]
      have hc2 : (d :: rest).countP (fun x => !push x)
          = rest.countP (fun x => !push x) + 1 := by
        simp [List.countP_cons, h]
      rw [hc1, hc2]
      simp only [BatchResults.mk.injEq, true_and, and_true]
      omega
    · have hstep : process_batch_go push ⟨s, f⟩ (d :: rest)
          = process_batch_go push ⟨s + 1, f⟩ rest := by
        simp [process_batch_go, h]
      rw [hstep, ih]
      have hc1 : (d :: rest).countP push = rest.countP push + 1 := by
        simp [List.countP_cons, h]
      have hc2 : (d :: rest).countP (fun x => !push x)
          = rest.countP (fun x => !push x) := by
        simp [List.countP_cons, h]
      rw [hc1, hc2]
      simp only [BatchResults.mk.injEq, true_and, and_true]
      omega

/-- The function `process_device_batch` tallies exactly the per-device push outcomes. -/
lemma process_device_batch_eq (push : String → Bool) (l : List String) :
    process_device_batch push l =
      ⟨l.countP push, l.countP (fun d => !push d)⟩ := by
  have h := process_batch_go_eq push l 0 0
  simpa [process_device_batch] using h

/-- Collecting only successful batch futures sums the per-device outcomes of
the concatenation of the batches. -/
lemma collect_go_ok_eq (push : String → Bool) :
    ∀ (P : List (List String)) (s f : Nat),
      collect_batch_go ⟨s, f⟩ (P.map (fun b => Except.ok (process_device_batch push b))) =
        ⟨s + P.flatten.countP push, f + P.flatten.countP (fun d => !push d)⟩ := by
  intro P
  induction P with
  | nil => intro s f; simp [collect_batch_go]
  | cons b P ih =>
    intro s f
    simp only [List.map_cons, collect_batch_go]
    rw [ih, process_device_batch_eq]
    simp only [List.flatten_cons, List.countP_append, BatchResults.mk.injEq,
      true_and, and_true]
    omega

/-- Closed form for the dispatcher totals over any batch list. -/
lemma dispatch_totals_eq (push : String → Bool) (P : List (List String)) :
    dispatch_totals push P =
      ⟨P.flatten.countP push, P.flatten.countP (fun d => !push d)⟩ := by
  have h := collect_go_ok_eq push P 0 0
  simpa [dispatch_totals, collect_batch_totals] using h

/-- With enough fuel, the slices produced by the batching loop concatenate
back to the sliced list. -/
lemma flatten_make_batches_go (b : Nat) :
    ∀ (fuel : Nat) (l : List String), l.length ≤ fuel →
      (make_batches_go (b + 1) fuel l).flatten = l := by
  intro fuel
  induction fuel with
  | zero =>
    intro l h
    rcases l with _ | ⟨d, rest⟩
    · simp [make_batches_go]
    · simp at h
  | succ fuel ih =>
    intro l h
    rcases l with _ | ⟨d, rest⟩
    · simp [make_batches_go]
    · simp only [make_batches_go, List.flatten_cons]
      rw [ih]
      · exact List.take_append_drop _ _
      · simp only [List.length_drop, List.length_cons]
        simp only [List.length_cons] at h
        omega

/-- The batches of `main` partition the device list. -/
lemma flatten_make_batches (bs : Nat) (hbs : bs ≠ 0) (l : List String) :
    (make_batches bs l).flatten = l := by
  obtain ⟨b, rfl⟩ := Nat.exists_eq_succ_of_ne_zero hbs
  exact flatten_make_batches_go b l.length l le_rfl

/-- The 17 devices of the C4 witness. -/
def c4_devices : List String :=
  ["CAL251", "CAL252", "CAL253", "CAL254", "CAL255", "CAL256", "CAL257",
   "CAL258", "CAL259", "CAL260", "CAL261", "CAL262", "CAL263", "CAL264",
   "CAL265", "CAL266", "CAL267"]

/-- Push oracle of the C4 witness: two devices fail, the rest deliver. -/
def c4_push : String → Bool := fun d => !(d = "CAL255" || d = "CAL260")

/-- C4: over any two partitions of the same device sequence into batches, the
dispatcher's aggregate totals coincide, and they equal the per-device sums:
the success tally counts exactly the devices whose push oracle delivers and
the failed tally the rest. -/
theorem dispatch_totals_partition_invariant (push : String → Bool)
    (devs : List String) (P Q : List (List String))
    (hP : P.flatten = devs) (hQ : Q.flatten = devs) :
    dispatch_totals push P = dispatch_totals push Q
    ∧ (dispatch_totals push P).success = devs.countP push
    ∧ (dispatch_totals push P).failed = devs.countP (fun d => !push d) := by
  subst hP
  rw [dispatch_totals_eq push P, dispatch_totals_eq push Q, hQ]
  exact ⟨rfl, rfl, rfl⟩

/-- Witness for C4: 17 devices split into batches of 8 and into batches of 5
yield identical aggregate totals. -/
theorem dispatch_totals_partition_invariant_witness :
    dispatch_totals c4_push (make_batches 8 c4_devices) =
      dispatch_totals c4_push (make_batches 5 c4_devices) :=
  (dispatch_totals_partition_invariant c4_push c4_devices
      (make_batches 8 c4_devices) (make_batches 5 c4_devices)
      (flatten_make_batches 8 (by decide) c4_devices)
      (flatten_make_batches 5 (by decide) c4_devices)).1

/-- C10: when every batch future completes normally (each batch contributes
its own tallies, none the error path), the dispatch totals partition the
reachable device list exactly: success plus failed equals its length, with
the success tally counting precisely the delivered devices and the failed
tally the rest — each device counted exactly once. -/
theorem dispatch_totals_partition_reachable (push : String → Bool)
    (devs : List String) :
    (dispatch_totals push (make_batches batch_size devs)).success
        + (dispatch_totals push (make_batches batch_size devs)).failed = devs.length
    ∧ (dispatch_totals push (make_batches batch_size devs)).success = devs.countP push
    ∧ (dispatch_totals push (make_batches batch_size devs)).failed =
        devs.countP (fun d => !push d) := by
  rw [dispatch_totals_eq, flatten_make_batches batch_size (by decide) devs]
  exact ⟨countP_add_countP_not push devs, rfl, rfl⟩

/-!  ## C3  -/

/-- The three reachable devices of the C3 scenario. -/
def c3_devices : List String := ["CAL251", "CAL252", "CAL253"]

/-- Push responses of the C3 scenario: `CAL252` always answers 404, the other
two always answer 200. -/
def c3_push_responses (d : String) : Nat → PushResponse :=
  fun _ => if d = "CAL252" then .status 404 else .status 200

/-- Per-device push outcome of the C3 scenario, obtained through
`send_to_thinger_api` itself, as in `process_device_batch`. -/
def c3_push (d : String) : Bool := (send_to_thinger_api (c3_push_responses d)).1

/-- C3 counterexample: the claim says the run summary keeps `delivered = 2`
and `notFound = 1` as distinct tallies, which would leave the failed tally at
0; but the batch result dict has only `success` and `failed` keys, and the
device whose push got a 404 lands in `failed`, so the scenario yields
`⟨2, 1⟩` with a non-zero failed tally. -/
theorem batch_404_no_distinct_not_found_tally :
    process_device_batch c3_push c3_devices = ⟨2, 1⟩
    ∧ (process_device_batch c3_push c3_devices).failed ≠ 0 := by
  constructor <;> decide

/-- C3 amended: with three reachable devices of which one gets a 404 and two
deliver, the batch tallies are `success = 2` and `failed = 1` (the 404 is
folded into the failed tally; no separate notFound count exists); the
success rate over the reachable denominator 3 is 200/3 percent, which the
run comparison classifies as failed against the source's 80-percent
threshold and as passed against a 50-percent threshold. -/
theorem batch_404_scenario_tallies_and_classification :
    process_device_batch c3_push c3_devices = ⟨2, 1⟩
    ∧ success_rate 2 3 = 200 / 3
    ∧ run_passes 2 3 80 = false
    ∧ run_passes 2 3 50 = true := by
  refine ⟨by decide, ?_, ?_, ?_⟩
  · unfold success_rate
    norm_num
  · simp only [run_passes, success_rate, Bool.not_eq_false', decide_eq_true_eq]
    norm_num
  · simp only [run_passes, success_rate, Bool.not_eq_true', decide_eq_false_iff_not]
    norm_num

/-!  ## C7  -/

/-- A caught `RequestException` makes one weather attempt fall through to the
next. -/
lemma weather_attempts_request_error (oracle : Nat → WeatherResp) (n a : Nat)
    (h : oracle a = .requestError) :
    weather_attempts oracle (n + 1) a = weather_attempts oracle n (a + 1) := by
  simp [weather_attempts, h]

/-- A malformed payload makes the attempt that received it end the loop with
an escaping `KeyError`, counting that attempt and performing no further
one. -/
lemma weather_attempts_malformed (oracle : Nat → WeatherResp) (n a : Nat)
    (payload : WeatherPayload) (h : oracle a = .ok payload)
    (hbad : payload_malformed payload = true) :
    weather_attempts oracle (n + 1) a = (.error (), a + 1) := by
  unfold payload_malformed at hbad
  rcases hm : payload.main with _ | m
  · simp [weather_attempts, h, hm]
  · rw [hm] at hbad
    simp only [Option.isNone_iff_eq_none, Bool.or_eq_true, decide_eq_true_eq] at hbad
    rcases ht : m.temp with _ | t
    · simp [weather_attempts, h, hm, ht]
    · rcases hh : m.humidity with _ | u
      · simp [weather_attempts, h, hm, ht, hh]
      · rw [ht, hh] at hbad
        rcases hbad with hbad | hbad <;> exact Option.noConfusion hbad

/-- Payload of the C7 counterexample: the whole `main` object is missing. -/
def c7_bad_payload : WeatherPayload := ⟨none, []⟩

/-- Weather oracle of the C7 counterexample: the first attempt already
returns the malformed body. -/
def c7_oracle : Nat → WeatherResp := fun _ => .ok c7_bad_payload

/-- Weather oracle of the C7 witness: a transport failure, then the
malformed body. -/
def c7_oracle_retry_then_bad : Nat → WeatherResp :=
  fun k => if k = 0 then .requestError else .ok c7_bad_payload

/-- C7 counterexample: a response whose payload lacks `main` does not give
the caller the ordinary `None` failure return — subscripting `data['main']`
raises a `KeyError` that the `except RequestException` clause does not
catch, so the exception escapes `get_athens_weather` after that single
attempt. -/
theorem weather_malformed_payload_escapes :
    get_athens_weather c7_oracle = (.error (), 1)
    ∧ (get_athens_weather c7_oracle).1 ≠ .ok none
    ∧ (get_athens_weather c7_oracle).1 ≠ .ok (some ⟨21, 60, "Athens", "GR", "clear"⟩) := by
  have h : get_athens_weather c7_oracle = (.error (), 1) := rfl
  refine ⟨h, ?_, ?_⟩ <;> rw [h] <;> intro hc <;> exact Except.noConfusion hc

/-- C7 amended: when an attempt of `get_athens_weather` receives a payload
missing a required field (`main`, `main.temp` or `main.humidity`), the
function raises an escaping `KeyError` instead of returning the ordinary
failure value `None`; the retry count is not extended — the request tally
stops at the attempt that got the malformed payload.  Only
`requests`-level transport/HTTP errors are retried. -/
theorem weather_malformed_escapes_without_retry_extension
    (oracle : Nat → WeatherResp) (k : Nat) (payload : WeatherPayload)
    (hk : k < MAX_RETRIES)
    (hpre : ∀ j, j < k → oracle j = .requestError)
    (hresp : oracle k = .ok payload)
    (hbad : payload_malformed payload = true) :
    get_athens_weather oracle = (.error (), k + 1) := by
  have hk3 : k < 3 := hk
  interval_cases k
  · show weather_attempts oracle 3 0 = (.error (), 1)
    exact weather_attempts_malformed oracle 2 0 payload hresp hbad
  · show weather_attempts oracle 3 0 = (.error (), 2)
    rw [weather_attempts_request_error oracle 2 0 (hpre 0 (by omega))]
    exact weather_attempts_malformed oracle 1 1 payload hresp hbad
  · show weather_attempts oracle 3 0 = (.error (), 3)
    rw [weather_attempts_request_error oracle 2 0 (hpre 0 (by omega)),
      weather_attempts_request_error oracle 1 1 (hpre 1 (by omega))]
    exact weather_attempts_malformed oracle 0 2 payload hresp hbad

/-- Witness for C7's amended statement: one transport failure and then a
malformed payload stop the fetch after exactly two requests with the
escaping error. -/
theorem weather_malformed_escapes_without_retry_extension_witness :
    get_athens_weather c7_oracle_retry_then_bad = (.error (), 2) :=
  weather_malformed_escapes_without_retry_extension c7_oracle_retry_then_bad 1
    c7_bad_payload (by decide) (by decide) (by decide) (by decide)

/-!  ## C8  -/

/-- Eleven reachable devices: one full batch of 8 and a short final batch of
3 under the source's batch size. -/
def c8_devices : List String :=
  ["CAL251", "CAL252", "CAL253", "CAL254", "CAL255", "CAL256", "CAL257",
   "CAL258", "CAL259", "CAL260", "CAL261"]

/-- Every individual push of the C8 scenario would deliver. -/
def c8_push : String → Bool := fun _ => true

/-- Batch futures of the C8 scenario: the full batch completes normally and
the short final batch is interrupted by a batch-level error. -/
def c8_future_results : List (Except Unit BatchResults) :=
  (make_batches batch_size c8_devices).map
    (fun b => if b.length < batch_size then Except.error ()
      else Except.ok (process_device_batch c8_push b))

/-- C8, evaluating the code at the failing input: with 11 reachable devices
the batches have sizes 8 and 3; when the 3-device batch hits a batch-level
error, the collection loop executes `total_failed += batch_size`, adding the
constant 8 — not the 3 devices the batch actually holds — so the totals
come out `⟨8, 8⟩` and no longer partition the 11 reachable devices.  The
claim's statement (exactly the actual batch size, short final batch
included, is added) is therefore what the surrounding accounting expects
but not what the code does. -/
theorem short_batch_error_overcounts_failed :
    (make_batches batch_size c8_devices).map List.length = [8, 3]
    ∧ collect_batch_totals c8_future_results = ⟨8, 8⟩
    ∧ (collect_batch_totals c8_future_results).failed ≠ 3
    ∧ (collect_batch_totals c8_future_results).success
        + (collect_batch_totals c8_future_results).failed ≠ c8_devices.length := by
  refine ⟨by decide, by decide, by decide, by decide⟩

/-!  ## C9  -/

/-- C9: when `THINGER_TOKEN` or `WEATHER_API_KEY` is absent, `main` returns
immediately with the configuration abort: no device is probed, the weather
GET is never issued and no push is attempted. -/
theorem main_missing_config_aborts_before_network
    (tokenPresent apiKeyPresent : Bool) (candidates : List String)
    (probeResponse : String → Option (Except Unit Nat))
    (weather : Option ℚ) (push : String → Bool)
    (h : tokenPresent = false ∨ apiKeyPresent = false) :
    mainRun tokenPresent apiKeyPresent candidates probeResponse weather push =
      ⟨[], false, [], .abortedConfig⟩ := by
  rcases h with h | h <;> subst h <;> simp [mainRun]

/-- Witness for C9: a missing token aborts the run with no network
activity. -/
theorem main_missing_config_aborts_before_network_witness :
    mainRun false true ["CAL251"] (fun _ => some (.ok 200)) (some 20) (fun _ => true) =
      ⟨[], false, [], .abortedConfig⟩ :=
  main_missing_config_aborts_before_network false true ["CAL251"]
    (fun _ => some (.ok 200)) (some 20) (fun _ => true) (Or.inl rfl)

/-!  ## C6  -/

/-- Probe responses of the C6 witness under which nothing is discovered. -/
def c6_probe_empty : String → Option (Except Unit Nat) := fun _ => some (.ok 404)

/-- Probe responses of the C6 witness under which the device is
discovered. -/
def c6_probe_found : String → Option (Except Unit Nat) := fun _ => some (.ok 200)

/-- C6: with the credentials present, `main` aborts with no push attempted
whenever discovery finds no reachable device (returning before the weather
GET), and aborts with no push attempted whenever the weather fetch reports
failure. -/
theorem main_aborts_on_empty_discovery_or_weather_failure
    (candidates : List String) (probeResponse : String → Option (Except Unit Nat))
    (weather : Option ℚ) (push : String → Bool) :
    (discover_available_devices probeResponse candidates = ∅ →
      (mainRun true true candidates probeResponse weather push).status = .abortedNoDevices
      ∧ (mainRun true true candidates probeResponse weather push).pushed = []
      ∧ (mainRun true true candidates probeResponse weather push).weatherAttempted = false)
    ∧ (weather = none →
      (mainRun true true candidates probeResponse weather push).status.isAborted = true
      ∧ (mainRun true true candidates probeResponse weather push).pushed = []) := by
  constructor
  · intro h
    refine ⟨?_, ?_, ?_⟩ <;> simp [mainRun, h]
  · rintro rfl
    by_cases h : discover_available_devices probeResponse candidates = ∅ <;>
      refine ⟨?_, ?_⟩ <;> simp [mainRun, h, RunStatus.isAborted]

/-- Witness for C6: an empty discovery aborts before the weather fetch, and
a failing weather fetch aborts before any push. -/
theorem main_aborts_on_empty_discovery_or_weather_failure_witness :
    ((mainRun true true ["CAL251"] c6_probe_empty (some 20) (fun _ => true)).status =
        .abortedNoDevices
      ∧ (mainRun true true ["CAL251"] c6_probe_empty (some 20) (fun _ => true)).pushed = []
      ∧ (mainRun true true ["CAL251"] c6_probe_empty (some 20)
          (fun _ => true)).weatherAttempted = false)
    ∧ ((mainRun true true ["CAL251"] c6_probe_found none (fun _ => true)).status.isAborted =
        true
      ∧ (mainRun true true ["CAL251"] c6_probe_found none (fun _ => true)).pushed = []) :=
  ⟨(main_aborts_on_empty_discovery_or_weather_failure ["CAL251"] c6_probe_empty
      (some 20) (fun _ => true)).1 (by decide),
    (main_aborts_on_empty_discovery_or_weather_failure ["CAL251"] c6_probe_found
      none (fun _ => true)).2 rfl⟩

/-!  ## C5  -/

/-- Counting push outcomes over the sorted device list of a discovered set
counts them over the set itself: the sort order never changes a tally. -/
lemma countP_sort_eq_card_filter (A : Finset String) (p : String → Bool) :
    (A.sort (· ≤ ·)).countP p = (A.filter (fun d => p d)).card := by
  rw [List.countP_eq_length_filter]
  have hnd : ((A.sort (· ≤ ·)).filter p).Nodup :=
    (Finset.sort_nodup (· ≤ ·) A).filter p
  rw [← List.toFinset_card_of_nodup hnd, List.toFinset_filter,
    Finset.sort_toFinset]

/-- Candidate space of the C5 scenario: 12 identifiers. -/
def c5_candidates : List String :=
  ["CAL251", "CAL252", "CAL253", "CAL254", "CAL255", "CAL256",
   "CAL257", "CAL258", "CAL259", "CAL260", "CAL261", "CAL262"]

/-- Probe responses of the C5 scenario: the last two candidates are absent
(404), the first ten reachable. -/
def c5_probe : String → Option (Except Unit Nat) := fun d =>
  if d = "CAL261" || d = "CAL262" then some (.ok 404) else some (.ok 200)

/-- Push outcomes of the C5 scenario: two of the ten reachable devices fail,
eight deliver. -/
def c5_push : String → Bool := fun d => !(d = "CAL259" || d = "CAL260")

/-- The ten reachable devices of the C5 scenario. -/
def c5_reachable : List String :=
  ["CAL251", "CAL252", "CAL253", "CAL254", "CAL255",
   "CAL256", "CAL257", "CAL258", "CAL259", "CAL260"]

/-- C5: with 12 candidates of which 10 are reachable and 8 delivered, `main`
classifies the run as passed — the rate `8/10·100 = 80` meets the 80-percent
comparison because `success_rate < 80` is strict, making the boundary
inclusive — and the denominator is the reachable-device count: over the full
12-candidate space the same 8 deliveries would rate `66.7` and fail. -/
theorem run_threshold_inclusive_with_reachable_denominator :
    (mainRun true true c5_candidates c5_probe (some 21) c5_push).status =
      .completed true 8 2
    ∧ run_passes 8 10 80 = true
    ∧ run_passes 8 12 80 = false := by
  have hrp : run_passes 8 10 80 = true := by
    simp only [run_passes, success_rate, Bool.not_eq_true', decide_eq_false_iff_not]
    norm_num
  refine ⟨?_, hrp, ?_⟩
  · have hA : discover_available_devices c5_probe c5_candidates =
        c5_reachable.toFinset := by decide
    have hne : ¬ (c5_reachable.toFinset = (∅ : Finset String)) := by decide
    have h8 : (c5_reachable.toFinset.filter (fun d => c5_push d)).card = 8 := by
      decide
    have h2 : (c5_reachable.toFinset.filter (fun d => !c5_push d)).card = 2 := by
      decide
    have h10 : c5_reachable.toFinset.card = 10 := by decide
    simp only [mainRun, hA, Bool.and_self, Bool.not_true, Bool.false_eq_true,
      if_false, hne, ite_false]
    rw [dispatch_totals_eq, flatten_make_batches batch_size (by decide)]
    simp only [countP_sort_eq_card_filter, Finset.length_sort, h8, h2, h10, hrp]
  · simp only [run_passes, success_rate, Bool.not_eq_false', decide_eq_true_eq]
    norm_num

end WeatherRunner
